import Mathlib

/-!
Shallow embedding of `pyrabbit/http.py`, the single source file of the
pyrabbit2 repository: a thin client for the HTTP management
API of a message broker.  Python methods on `HTTPClient` become Lean functions that take the
external collaborators (`Env`: the httplib2 transport, the utf-8 decoder
and the JSON parser), the instance state (`HTTPClient`: the `base_url`
field set in `__init__`), and the request counter of the transport `n`, and
return the result (`Except PyError _`, since the methods may raise) plus
the instance state and the counter after the call.
-/

namespace Pyrabbit

/-- Python exception values raised by the code in `http.py`: the three typed
errors `HTTPError(status, reason, path)`, `NetworkError(msg)`, `APIError(msg)`
defined there, plus `valueError` standing for decoding/parsing exceptions
raised by the external utf-8 decoder or JSON parser. -/
inductive PyError where
  | httpError (status : Nat) (reason : String) (path : String)
  | networkError (msg : String)
  | apiError (msg : String)
  | valueError (msg : String)
  deriving DecidableEq

/-- The fields of an httplib2 response object that `http.py` reads:
`resp.status` and `resp.reason`. -/
structure Resp where
  status : Nat
  reason : String
  deriving DecidableEq

/-- Outcome of one invocation of the `request`
method of the external httplib2 client: either it raises some exception (modelled by the type
name and message of the exception, as used in the `NetworkError` message
`"Error: %s %s" % (type(out), out)` built by `do_call`),
or it returns a response and the raw byte content (bytes modelled as
`List Nat`). -/
inductive RequestResult where
  | exn (tyname msg : String)
  | ok (resp : Resp) (content : List Nat)
  deriving DecidableEq

/-- The external collaborators of `http.py`, out of scope per the spec:
`request i path reqtype` is the answer of the transport to the `i`-th HTTP request
issued through the client (indexing by a request counter makes the stateful
socket explicit and lets a time-varying transport be represented);
`utf8Decode` models `bytes.decode(utf8)` and `jsonLoads` models
`json.loads`, both fallible. -/
structure Env (J : Type) where
  request : Nat → String → String → RequestResult
  utf8Decode : List Nat → Except PyError String
  jsonLoads : String → Except PyError J

/-- Python `%`-formatting restricted to `%s` specifiers, which is the only
form appearing in the templates of `http.py`: scan the template left to right,
replacing each `%s` with the next argument; substituted text is not
rescanned.  (A `%s` left over when the arguments run out is kept literally;
no call in the embedding reaches that case.) -/
def substPercentS : List Char → List String → List Char
  | [], _ => []
  | [c], _ => [c]
  | c1 :: c2 :: rest, args =>
    if c1 = '%' ∧ c2 = 's' then
      match args with
      | a :: as => a.data ++ substPercentS rest as
      | [] => c1 :: c2 :: substPercentS rest []
    else
      c1 :: substPercentS (c2 :: rest) args

/-- Python `template % args` for string arguments (see `substPercentS`). -/
def pyFmt (t : String) (args : List String) : String :=
  ⟨substPercentS t.data args⟩

/-- `os.path.join(a, b)` for two components (posixpath): if `b` starts with
`/`, the result is `b`; else if `a` is empty or ends with `/`, the result is
`a + b`; else `a + sep + b` with separator `/`. -/
def pathJoin (a b : String) : String :=
  if b.data.head? = some '/' then b
  else if a.data = [] ∨ a.data.getLast? = some '/' then a ++ b
  else a ++ "/" ++ b

/-- Python truthiness of an optional-string parameter defaulting to `None`
(`if vhost:` in `get_queues`, `if name:` in `get_connections`): `None` and
the empty string are falsy, every other string is truthy. -/
def strTruthy : Option String → Bool
  | none => false
  | some s => s != ""

/-- The instance state set by `HTTPClient.__init__` that the methods read:
the `base_url` string.  The `client` field (the httplib2 object) is external
state, modelled by `Env.request` together with the request counter. -/
structure HTTPClient where
  base_url : String
  deriving DecidableEq

/-- The `HTTPClient.urls` class-level path-template table, verbatim. -/
def urls : List (String × String) :=
  [("overview", "overview"),
   ("all_queues", "queues"),
   ("all_exchanges", "exchanges"),
   ("all_channels", "channels"),
   ("all_connections", "connections"),
   ("all_nodes", "nodes"),
   ("all_vhosts", "vhosts"),
   ("all_users", "users"),
   ("whoami", "whoami"),
   ("queues_by_vhost", "queues/%s"),
   ("queues_by_name", "queues/%s/%s"),
   ("exchanges_by_vhost", "exchanges/%s"),
   ("exchange_by_name", "exchanges/%s/%s"),
   ("live_test", "aliveness-test/%s"),
   ("purge_queue", "queues/%s/%s/contents"),
   ("connections_by_name", "connections/%s")]

/-- Dictionary lookup `HTTPClient.urls[k]`; every key used by the code is
present in the table, so the `""` default is never reached. -/
def urlsGet (k : String) : String :=
  (urls.lookup k).getD ""

/-- `HTTPClient.__init__(server, uname, passwd)`: sets
`base_url` to the template `http://%s/api` with `server` substituted; the credentials are handed to the
external httplib2 client and play no further role in `http.py`. -/
def mkHTTPClient (server _uname _passwd : String) : HTTPClient :=
  { base_url := pyFmt "http://%s/api" [server] }

section Methods

variable {J : Type}

/-- `HTTPClient.decode_json_content(content)`:
`json.loads` applied to the utf-8 decoding of `content`. -/
def decode_json_content (env : Env J) (content : List Nat) : Except PyError J :=
  (env.utf8Decode content).bind env.jsonLoads

/-- `HTTPClient.do_call(path, reqtype)`: one `self.client.request`; any
exception from it becomes `NetworkError`; a response with status other than
200 becomes `HTTPError(resp.status, resp.reason, path)`; otherwise the
response and content are returned unchanged. -/
def do_call (env : Env J) (c : HTTPClient) (n : Nat) (path reqtype : String) :
    Except PyError (Resp × List Nat) × HTTPClient × Nat :=
  match env.request n path reqtype with
  | .exn ty m => (.error (.networkError (pyFmt "Error: %s %s" [ty, m])), c, n + 1)
  | .ok resp content =>
    if resp.status ≠ 200 then
      (.error (.httpError resp.status resp.reason path), c, n + 1)
    else
      (.ok (resp, content), c, n + 1)

/-- `HTTPClient.is_alive(vhost)`, default vhost `%2F`: GET on the `live_test` template; an
`HTTPError` with status 404 is translated to
`APIError` with message template `No vhost named <vhost>`, any other `HTTPError` is
re-raised; on a normal `do_call` return, `True` if the status is 200 else
`False`. -/
def is_alive (env : Env J) (c : HTTPClient) (n : Nat) (vhost : String) :
    Except PyError Bool × HTTPClient × Nat :=
  let uri := pathJoin c.base_url (pyFmt (urlsGet "live_test") [vhost])
  match do_call env c n uri "GET" with
  | (.ok (resp, _content), c', n') =>
    (if resp.status = 200 then .ok true else .ok false, c', n')
  | (.error (.httpError s r p), c', n') =>
    (if s = 404 then .error (.apiError (pyFmt "No vhost named \x27%s\x27" [vhost]))
     else .error (.httpError s r p), c', n')
  | (.error e, c', n') => (.error e, c', n')

/-- `HTTPClient.get_whoami()`: GET on the `whoami` template and decode. -/
def get_whoami (env : Env J) (c : HTTPClient) (n : Nat) :
    Except PyError J × HTTPClient × Nat :=
  let path := pathJoin c.base_url (urlsGet "whoami")
  match do_call env c n path "GET" with
  | (.ok (_resp, content), c', n') => (decode_json_content env content, c', n')
  | (.error e, c', n') => (.error e, c', n')

/-- `HTTPClient.get_users()`: GET on the `all_users` template; an `HTTPError`
with status 401 is translated to `APIError("Only admin can access user
data")`, any other `HTTPError` is re-raised; on success the content is
decoded. -/
def get_users (env : Env J) (c : HTTPClient) (n : Nat) :
    Except PyError J × HTTPClient × Nat :=
  let path := pathJoin c.base_url (urlsGet "all_users")
  match do_call env c n path "GET" with
  | (.ok (_resp, content), c', n') => (decode_json_content env content, c', n')
  | (.error (.httpError s r p), c', n') =>
    (if s = 401 then .error (.apiError "Only admin can access user data")
     else .error (.httpError s r p), c', n')
  | (.error e, c', n') => (.error e, c', n')

/-- `HTTPClient.get_overview()`: GET on the `overview` template and decode. -/
def get_overview (env : Env J) (c : HTTPClient) (n : Nat) :
    Except PyError J × HTTPClient × Nat :=
  match do_call env c n (pathJoin c.base_url (urlsGet "overview")) "GET" with
  | (.ok (_resp, content), c', n') => (decode_json_content env content, c', n')
  | (.error e, c', n') => (.error e, c', n')

/-- `HTTPClient.get_all_vhosts()`: GET on the `all_vhosts` template and
decode. -/
def get_all_vhosts (env : Env J) (c : HTTPClient) (n : Nat) :
    Except PyError J × HTTPClient × Nat :=
  match do_call env c n (pathJoin c.base_url (urlsGet "all_vhosts")) "GET" with
  | (.ok (_resp, content), c', n') => (decode_json_content env content, c', n')
  | (.error e, c', n') => (.error e, c', n')

/-- `HTTPClient.get_queues(vhost=None)`: if `vhost` is truthy, substitute it
into the `queues_by_vhost` template, else use `all_queues`; GET and decode. -/
def get_queues (env : Env J) (c : HTTPClient) (n : Nat) (vhost : Option String) :
    Except PyError J × HTTPClient × Nat :=
  let path :=
    match vhost with
    | some v => if v != "" then pyFmt (urlsGet "queues_by_vhost") [v] else urlsGet "all_queues"
    | none => urlsGet "all_queues"
  match do_call env c n (pathJoin c.base_url path) "GET" with
  | (.ok (_resp, content), c', n') => (decode_json_content env content, c', n')
  | (.error e, c', n') => (.error e, c', n')

/-- `HTTPClient.get_queue(vhost, name)`: substitute both arguments into the
`queues_by_name` template; GET and decode. -/
def get_queue (env : Env J) (c : HTTPClient) (n : Nat) (vhost name : String) :
    Except PyError J × HTTPClient × Nat :=
  let path := pyFmt (urlsGet "queues_by_name") [vhost, name]
  match do_call env c n (pathJoin c.base_url path) "GET" with
  | (.ok (_resp, content), c', n') => (decode_json_content env content, c', n')
  | (.error e, c', n') => (.error e, c', n')

/-- `HTTPClient.purge_queue(vhost, name)`: DELETE on the `purge_queue`
template; an `HTTPError` with status 204 is swallowed and `True` returned,
any other `HTTPError` is re-raised; on a normal `do_call` return the method
returns `True`. -/
def purge_queue (env : Env J) (c : HTTPClient) (n : Nat) (vhost name : String) :
    Except PyError Bool × HTTPClient × Nat :=
  let path := pyFmt (urlsGet "purge_queue") [vhost, name]
  match do_call env c n (pathJoin c.base_url path) "DELETE" with
  | (.ok _, c', n') => (.ok true, c', n')
  | (.error (.httpError s r p), c', n') =>
    (if s = 204 then .ok true else .error (.httpError s r p), c', n')
  | (.error e, c', n') => (.error e, c', n')

/-- `HTTPClient.get_exchanges(vhost=None)`: if `vhost` is truthy, substitute
it into the `exchanges_by_vhost` template, else use `all_exchanges`; GET and
decode. -/
def get_exchanges (env : Env J) (c : HTTPClient) (n : Nat) (vhost : Option String) :
    Except PyError J × HTTPClient × Nat :=
  let path :=
    match vhost with
    | some v =>
      if v != "" then pyFmt (urlsGet "exchanges_by_vhost") [v] else urlsGet "all_exchanges"
    | none => urlsGet "all_exchanges"
  match do_call env c n (pathJoin c.base_url path) "GET" with
  | (.ok (_resp, content), c', n') => (decode_json_content env content, c', n')
  | (.error e, c', n') => (.error e, c', n')

/-- `HTTPClient.get_exchange(vhost, name)`: substitute both arguments into
the `exchange_by_name` template; GET and decode. -/
def get_exchange (env : Env J) (c : HTTPClient) (n : Nat) (vhost name : String) :
    Except PyError J × HTTPClient × Nat :=
  let path := pyFmt (urlsGet "exchange_by_name") [vhost, name]
  match do_call env c n (pathJoin c.base_url path) "GET" with
  | (.ok (_resp, content), c', n') => (decode_json_content env content, c', n')
  | (.error e, c', n') => (.error e, c', n')

/-- `HTTPClient.get_connections(name=None)`: if `name` is truthy the path is
the `connections_by_name` template taken verbatim (the source performs
no `%` substitution here), else `all_connections`; GET and decode. -/
def get_connections (env : Env J) (c : HTTPClient) (n : Nat) (name : Option String) :
    Except PyError J × HTTPClient × Nat :=
  let path := if strTruthy name then urlsGet "connections_by_name" else urlsGet "all_connections"
  match do_call env c n (pathJoin c.base_url path) "GET" with
  | (.ok (_resp, content), c', n') => (decode_json_content env content, c', n')
  | (.error e, c', n') => (.error e, c', n')

/-- `HTTPClient.get_channels()`: GET on the `all_channels` template and
decode. -/
def get_channels (env : Env J) (c : HTTPClient) (n : Nat) :
    Except PyError J × HTTPClient × Nat :=
  let path := urlsGet "all_channels"
  match do_call env c n (pathJoin c.base_url path) "GET" with
  | (.ok (_resp, content), c', n') => (decode_json_content env content, c', n')
  | (.error e, c', n') => (.error e, c', n')

/-- Refinement side, following the wording of the path-construction claim:
one GET issued to an explicitly given URL, followed by generic JSON
decoding.  Comparing an operation with `getJsonAt` at an explicit URL states
which URL that operation requests. -/
def getJsonAt (env : Env J) (c : HTTPClient) (n : Nat) (url : String) :
    Except PyError J × HTTPClient × Nat :=
  match do_call env c n url "GET" with
  | (.ok (_resp, content), c', n') => (decode_json_content env content, c', n')
  | (.error e, c', n') => (.error e, c', n')

/-- Refinement side: the aliveness-check behaviour at an explicitly given
URL, used to state which URL `is_alive` requests. -/
def aliveCheckAt (env : Env J) (c : HTTPClient) (n : Nat) (url vhost : String) :
    Except PyError Bool × HTTPClient × Nat :=
  match do_call env c n url "GET" with
  | (.ok (resp, _content), c', n') =>
    (if resp.status = 200 then .ok true else .ok false, c', n')
  | (.error (.httpError s r p), c', n') =>
    (if s = 404 then .error (.apiError (pyFmt "No vhost named \x27%s\x27" [vhost]))
     else .error (.httpError s r p), c', n')
  | (.error e, c', n') => (.error e, c', n')

/-- Refinement side: the user-listing behaviour (including the 401
translation of `get_users`) at an explicitly given URL, used to state which
URL `get_users` requests. -/
def getUsersAt (env : Env J) (c : HTTPClient) (n : Nat) (url : String) :
    Except PyError J × HTTPClient × Nat :=
  match do_call env c n url "GET" with
  | (.ok (_resp, content), c', n') => (decode_json_content env content, c', n')
  | (.error (.httpError s r p), c', n') =>
    (if s = 401 then .error (.apiError "Only admin can access user data")
     else .error (.httpError s r p), c', n')
  | (.error e, c', n') => (.error e, c', n')

/-- Refinement side: the purge behaviour (including the 204 conversion of
`purge_queue`) at an explicitly given URL, used to state which URL
`purge_queue` requests. -/
def purgeCheckAt (env : Env J) (c : HTTPClient) (n : Nat) (url : String) :
    Except PyError Bool × HTTPClient × Nat :=
  match do_call env c n url "DELETE" with
  | (.ok _, c', n') => (.ok true, c', n')
  | (.error (.httpError s r p), c', n') =>
    (if s = 204 then .ok true else .error (.httpError s r p), c', n')
  | (.error e, c', n') => (.error e, c', n')

end Methods

/-- Test fixture: a path-sensitive transport answering 200 with content
`[104, 105]` on exactly the given URL and 404 with empty content on every
other URL; it distinguishes which URL an operation actually requests. -/
def envOnly (url : String) : Env Nat :=
  { request := fun _ p _ =>
      if p = url then .ok ⟨200, "OK"⟩ [104, 105] else .ok ⟨404, "Not Found"⟩ [],
    utf8Decode := fun bs => .ok ⟨bs.map Char.ofNat⟩,
    jsonLoads := fun s => .ok s.length }

/-- Test fixture: a transport whose every request raises, with trivial
decoders. -/
def envRaising : Env Nat :=
  { request := fun _ _ _ => .exn "OSError" "connection refused",
    utf8Decode := fun _ => .ok "",
    jsonLoads := fun s => .ok s.length }

/-- Test fixture: a transport answering every request with the given status,
reason `"why"` and content `[104, 105]`; the decoders turn the content into
its length as the parsed JSON value. -/
def envWith (s : Nat) : Env Nat :=
  { request := fun _ _ _ => .ok ⟨s, "why"⟩ [104, 105],
    utf8Decode := fun bs => .ok ⟨bs.map Char.ofNat⟩,
    jsonLoads := fun s => .ok s.length }

/-- Test fixture: a client built by `__init__` from a concrete server
string. -/
def testClient : HTTPClient :=
  mkHTTPClient "localhost:15672" "guest" "guest"

section Helpers

variable {J : Type}

/-- Both state components returned by `do_call`: the instance state is
untouched and the request counter advances by exactly one. -/
theorem do_call_state (env : Env J) (c : HTTPClient) (n : Nat) (path rt : String) :
    (do_call env c n path rt).2 = (c, n + 1) := by
  rcases h : env.request n path rt with ⟨ty, m⟩ | ⟨resp, content⟩
  · simp [do_call, h]
  · simp only [do_call, h]
    split <;> rfl

/-- `do_call` when the transport raises. -/
theorem do_call_exn (env : Env J) (c : HTTPClient) (n : Nat) (path rt ty m : String)
    (h : env.request n path rt = .exn ty m) :
    do_call env c n path rt
      = (.error (.networkError (pyFmt "Error: %s %s" [ty, m])), c, n + 1) := by
  simp [do_call, h]

/-- `do_call` on a response with status other than 200. -/
theorem do_call_bad (env : Env J) (c : HTTPClient) (n : Nat) (path rt : String)
    (resp : Resp) (content : List Nat)
    (h : env.request n path rt = .ok resp content) (hs : resp.status ≠ 200) :
    do_call env c n path rt
      = (.error (.httpError resp.status resp.reason path), c, n + 1) := by
  simp [do_call, h, hs]

/-- `do_call` on a response with status 200. -/
theorem do_call_ok (env : Env J) (c : HTTPClient) (n : Nat) (path rt : String)
    (resp : Resp) (content : List Nat)
    (h : env.request n path rt = .ok resp content) (hs : resp.status = 200) :
    do_call env c n path rt = (.ok (resp, content), c, n + 1) := by
  simp [do_call, h, hs]

/-- Substitution into the `__init__` base-url template. -/
theorem pyFmt_base_url (s : String) :
    pyFmt "http://%s/api" [s] = "http://" ++ s ++ "/api" := by
  apply String.ext
  simp [pyFmt, substPercentS, String.data_append]

/-- Substitution into the `queues_by_name` template. -/
theorem pyFmt_queues_by_name (v nm : String) :
    pyFmt "queues/%s/%s" [v, nm] = "queues/" ++ v ++ "/" ++ nm := by
  apply String.ext
  simp [pyFmt, substPercentS, String.data_append]

/-- Substitution into the `live_test` template. -/
theorem pyFmt_live_test (v : String) :
    pyFmt "aliveness-test/%s" [v] = "aliveness-test/" ++ v := by
  apply String.ext
  simp [pyFmt, substPercentS, String.data_append]

/-- Substitution into the `queues_by_vhost` template. -/
theorem pyFmt_queues_by_vhost (v : String) :
    pyFmt "queues/%s" [v] = "queues/" ++ v := by
  apply String.ext
  simp [pyFmt, substPercentS, String.data_append]

/-- Substitution into the `exchanges_by_vhost` template. -/
theorem pyFmt_exchanges_by_vhost (v : String) :
    pyFmt "exchanges/%s" [v] = "exchanges/" ++ v := by
  apply String.ext
  simp [pyFmt, substPercentS, String.data_append]

/-- Substitution into the `exchange_by_name` template. -/
theorem pyFmt_exchange_by_name (v nm : String) :
    pyFmt "exchanges/%s/%s" [v, nm] = "exchanges/" ++ v ++ "/" ++ nm := by
  apply String.ext
  simp [pyFmt, substPercentS, String.data_append]

/-- Substitution into the `purge_queue` template. -/
theorem pyFmt_purge_queue (v nm : String) :
    pyFmt "queues/%s/%s/contents" [v, nm]
      = "queues/" ++ v ++ "/" ++ nm ++ "/contents" := by
  apply String.ext
  simp [pyFmt, substPercentS, String.data_append]

/-- Substitution into the vhost-not-found message template. -/
theorem pyFmt_no_vhost (v : String) :
    pyFmt "No vhost named \x27%s\x27" [v] = "No vhost named \x27" ++ v ++ "\x27" := by
  apply String.ext
  simp [pyFmt, substPercentS, String.data_append]

/-- Joining the base url (which is nonempty and does not end in a slash)
with a relative path that does not start with a slash inserts exactly one
separator. -/
theorem pathJoin_base (s b : String) (hb : b.data.head? ≠ some '/') :
    pathJoin ("http://" ++ s ++ "/api") b = "http://" ++ s ++ "/api" ++ "/" ++ b := by
  have hA : ¬(("http://" ++ s ++ "/api").data = [] ∨
      ("http://" ++ s ++ "/api").data.getLast? = some '/') := by
    simp [String.data_append, List.getLast?_cons, List.getLast?_append]
  unfold pathJoin
  rw [if_neg hb, if_neg hA]

/-- Joining the base url with a relative path, rewritten to any string with
the same character data (used to merge the separator into the adjacent
literals). -/
theorem pathJoin_base_data (s b t : String) (hb : b.data.head? ≠ some '/')
    (ht : ("http://" ++ s ++ "/api" ++ "/" ++ b).data = t.data) :
    pathJoin ("http://" ++ s ++ "/api") b = t := by
  rw [pathJoin_base s b hb]
  exact String.ext ht

/-- State framing of `is_alive`: instance unchanged, one request issued. -/
theorem is_alive_state (env : Env J) (c : HTTPClient) (n : Nat) (v : String) :
    (is_alive env c n v).2 = (c, n + 1) := by
  have h2 := do_call_state env c n (pathJoin c.base_url (pyFmt (urlsGet "live_test") [v])) "GET"
  rcases hdc : do_call env c n (pathJoin c.base_url (pyFmt (urlsGet "live_test") [v])) "GET" with ⟨res, st⟩
  rw [hdc] at h2
  rcases res with e | ⟨resp, content⟩
  · rcases e <;> simpa [is_alive, hdc] using h2
  · simpa [is_alive, hdc] using h2

/-- State framing of `get_whoami`: instance unchanged, one request issued. -/
theorem get_whoami_state (env : Env J) (c : HTTPClient) (n : Nat) :
    (get_whoami env c n).2 = (c, n + 1) := by
  have h2 := do_call_state env c n (pathJoin c.base_url (urlsGet "whoami")) "GET"
  rcases hdc : do_call env c n (pathJoin c.base_url (urlsGet "whoami")) "GET" with ⟨res, st⟩
  rw [hdc] at h2
  rcases res with e | ⟨resp, content⟩
  · rcases e <;> simpa [get_whoami, hdc] using h2
  · simpa [get_whoami, hdc] using h2

/-- State framing of `get_users`: instance unchanged, one request issued. -/
theorem get_users_state (env : Env J) (c : HTTPClient) (n : Nat) :
    (get_users env c n).2 = (c, n + 1) := by
  have h2 := do_call_state env c n (pathJoin c.base_url (urlsGet "all_users")) "GET"
  rcases hdc : do_call env c n (pathJoin c.base_url (urlsGet "all_users")) "GET" with ⟨res, st⟩
  rw [hdc] at h2
  rcases res with e | ⟨resp, content⟩
  · rcases e <;> simpa [get_users, hdc] using h2
  · simpa [get_users, hdc] using h2

/-- State framing of `get_overview`: instance unchanged, one request issued. -/
theorem get_overview_state (env : Env J) (c : HTTPClient) (n : Nat) :
    (get_overview env c n).2 = (c, n + 1) := by
  have h2 := do_call_state env c n (pathJoin c.base_url (urlsGet "overview")) "GET"
  rcases hdc : do_call env c n (pathJoin c.base_url (urlsGet "overview")) "GET" with ⟨res, st⟩
  rw [hdc] at h2
  rcases res with e | ⟨resp, content⟩
  · rcases e <;> simpa [get_overview, hdc] using h2
  · simpa [get_overview, hdc] using h2

/-- State framing of `get_all_vhosts`: instance unchanged, one request issued. -/
theorem get_all_vhosts_state (env : Env J) (c : HTTPClient) (n : Nat) :
    (get_all_vhosts env c n).2 = (c, n + 1) := by
  have h2 := do_call_state env c n (pathJoin c.base_url (urlsGet "all_vhosts")) "GET"
  rcases hdc : do_call env c n (pathJoin c.base_url (urlsGet "all_vhosts")) "GET" with ⟨res, st⟩
  rw [hdc] at h2
  rcases res with e | ⟨resp, content⟩
  · rcases e <;> simpa [get_all_vhosts, hdc] using h2
  · simpa [get_all_vhosts, hdc] using h2

/-- State framing of `get_queue`: instance unchanged, one request issued. -/
theorem get_queue_state (env : Env J) (c : HTTPClient) (n : Nat) (v nm : String) :
    (get_queue env c n v nm).2 = (c, n + 1) := by
  have h2 := do_call_state env c n (pathJoin c.base_url (pyFmt (urlsGet "queues_by_name") [v, nm])) "GET"
  rcases hdc : do_call env c n (pathJoin c.base_url (pyFmt (urlsGet "queues_by_name") [v, nm])) "GET" with ⟨res, st⟩
  rw [hdc] at h2
  rcases res with e | ⟨resp, content⟩
  · rcases e <;> simpa [get_queue, hdc] using h2
  · simpa [get_queue, hdc] using h2

/-- State framing of `purge_queue`: instance unchanged, one request issued. -/
theorem purge_queue_state (env : Env J) (c : HTTPClient) (n : Nat) (v nm : String) :
    (purge_queue env c n v nm).2 = (c, n + 1) := by
  have h2 := do_call_state env c n (pathJoin c.base_url (pyFmt (urlsGet "purge_queue") [v, nm])) "DELETE"
  rcases hdc : do_call env c n (pathJoin c.base_url (pyFmt (urlsGet "purge_queue") [v, nm])) "DELETE" with ⟨res, st⟩
  rw [hdc] at h2
  rcases res with e | ⟨resp, content⟩
  · rcases e <;> simpa [purge_queue, hdc] using h2
  · simpa [purge_queue, hdc] using h2

/-- State framing of `get_exchange`: instance unchanged, one request issued. -/
theorem get_exchange_state (env : Env J) (c : HTTPClient) (n : Nat) (v nm : String) :
    (get_exchange env c n v nm).2 = (c, n + 1) := by
  have h2 := do_call_state env c n (pathJoin c.base_url (pyFmt (urlsGet "exchange_by_name") [v, nm])) "GET"
  rcases hdc : do_call env c n (pathJoin c.base_url (pyFmt (urlsGet "exchange_by_name") [v, nm])) "GET" with ⟨res, st⟩
  rw [hdc] at h2
  rcases res with e | ⟨resp, content⟩
  · rcases e <;> simpa [get_exchange, hdc] using h2
  · simpa [get_exchange, hdc] using h2

/-- State framing of `get_channels`: instance unchanged, one request issued. -/
theorem get_channels_state (env : Env J) (c : HTTPClient) (n : Nat) :
    (get_channels env c n).2 = (c, n + 1) := by
  have h2 := do_call_state env c n (pathJoin c.base_url (urlsGet "all_channels")) "GET"
  rcases hdc : do_call env c n (pathJoin c.base_url (urlsGet "all_channels")) "GET" with ⟨res, st⟩
  rw [hdc] at h2
  rcases res with e | ⟨resp, content⟩
  · rcases e <;> simpa [get_channels, hdc] using h2
  · simpa [get_channels, hdc] using h2

/-- State framing of `get_queues`: instance unchanged, one request issued. -/
theorem get_queues_state (env : Env J) (c : HTTPClient) (n : Nat) (ov : Option String) :
    (get_queues env c n ov).2 = (c, n + 1) := by
  rcases ov with _ | v
  · have h2 := do_call_state env c n (pathJoin c.base_url (urlsGet "all_queues")) "GET"
    rcases hdc : do_call env c n (pathJoin c.base_url (urlsGet "all_queues")) "GET" with ⟨res, st⟩
    rw [hdc] at h2
    rcases res with e | ⟨resp, content⟩
    · rcases e <;> simpa [get_queues, hdc] using h2
    · simpa [get_queues, hdc] using h2
  · by_cases hv : v = ""
    · subst hv
      have h2 := do_call_state env c n (pathJoin c.base_url (urlsGet "all_queues")) "GET"
      rcases hdc : do_call env c n (pathJoin c.base_url (urlsGet "all_queues")) "GET" with ⟨res, st⟩
      rw [hdc] at h2
      rcases res with e | ⟨resp, content⟩
      · rcases e <;> simpa [get_queues, hdc] using h2
      · simpa [get_queues, hdc] using h2
    · have h2 := do_call_state env c n
        (pathJoin c.base_url (pyFmt (urlsGet "queues_by_vhost") [v])) "GET"
      rcases hdc : do_call env c n
          (pathJoin c.base_url (pyFmt (urlsGet "queues_by_vhost") [v])) "GET" with ⟨res, st⟩
      rw [hdc] at h2
      rcases res with e | ⟨resp, content⟩
      · rcases e <;> simpa [get_queues, hv, hdc] using h2
      · simpa [get_queues, hv, hdc] using h2

/-- State framing of `get_exchanges`: instance unchanged, one request issued. -/
theorem get_exchanges_state (env : Env J) (c : HTTPClient) (n : Nat) (ov : Option String) :
    (get_exchanges env c n ov).2 = (c, n + 1) := by
  rcases ov with _ | v
  · have h2 := do_call_state env c n (pathJoin c.base_url (urlsGet "all_exchanges")) "GET"
    rcases hdc : do_call env c n (pathJoin c.base_url (urlsGet "all_exchanges")) "GET" with ⟨res, st⟩
    rw [hdc] at h2
    rcases res with e | ⟨resp, content⟩
    · rcases e <;> simpa [get_exchanges, hdc] using h2
    · simpa [get_exchanges, hdc] using h2
  · by_cases hv : v = ""
    · subst hv
      have h2 := do_call_state env c n (pathJoin c.base_url (urlsGet "all_exchanges")) "GET"
      rcases hdc : do_call env c n (pathJoin c.base_url (urlsGet "all_exchanges")) "GET" with ⟨res, st⟩
      rw [hdc] at h2
      rcases res with e | ⟨resp, content⟩
      · rcases e <;> simpa [get_exchanges, hdc] using h2
      · simpa [get_exchanges, hdc] using h2
    · have h2 := do_call_state env c n
        (pathJoin c.base_url (pyFmt (urlsGet "exchanges_by_vhost") [v])) "GET"
      rcases hdc : do_call env c n
          (pathJoin c.base_url (pyFmt (urlsGet "exchanges_by_vhost") [v])) "GET" with ⟨res, st⟩
      rw [hdc] at h2
      rcases res with e | ⟨resp, content⟩
      · rcases e <;> simpa [get_exchanges, hv, hdc] using h2
      · simpa [get_exchanges, hv, hdc] using h2

/-- State framing of `get_connections`: instance unchanged, one request
issued. -/
theorem get_connections_state (env : Env J) (c : HTTPClient) (n : Nat) (ov : Option String) :
    (get_connections env c n ov).2 = (c, n + 1) := by
  have h2 := do_call_state env c n (pathJoin c.base_url
    (if strTruthy ov then urlsGet "connections_by_name" else urlsGet "all_connections")) "GET"
  rcases hdc : do_call env c n (pathJoin c.base_url
      (if strTruthy ov then urlsGet "connections_by_name" else urlsGet "all_connections")) "GET"
    with ⟨res, st⟩
  rw [hdc] at h2
  rcases res with e | ⟨resp, content⟩
  · rcases e <;> simpa [get_connections, hdc] using h2
  · simpa [get_connections, hdc] using h2

end Helpers

/-- Claim C1: for every call to `do_call(path, reqtype)`, if the underlying
HTTP request raises any exception, `do_call` raises `NetworkError`;
otherwise, if the response status is not 200, `do_call` raises `HTTPError`
carrying exactly that status, its reason and the requested path; otherwise
`do_call` returns the response and content unchanged; and `do_call` itself
raises no other error type (never `APIError`, never a decoding error). -/
theorem do_call_error_translation {J : Type} (env : Env J) (c : HTTPClient)
    (n : Nat) (path reqtype : String) :
    (∀ ty m, env.request n path reqtype = .exn ty m →
      ∃ msg, (do_call env c n path reqtype).1 = .error (.networkError msg)) ∧
    (∀ resp content, env.request n path reqtype = .ok resp content →
      (resp.status ≠ 200 →
        (do_call env c n path reqtype).1
          = .error (.httpError resp.status resp.reason path)) ∧
      (resp.status = 200 →
        (do_call env c n path reqtype).1 = .ok (resp, content))) ∧
    (∀ m, (do_call env c n path reqtype).1 ≠ .error (.apiError m)) ∧
    (∀ m, (do_call env c n path reqtype).1 ≠ .error (.valueError m)) := by
  refine ⟨?_, ?_, ?_, ?_⟩
  · intro ty m h
    exact ⟨pyFmt "Error: %s %s" [ty, m], by simp [do_call, h]⟩
  · intro resp content h
    exact ⟨fun hs => by simp [do_call, h, hs], fun hs => by simp [do_call, h, hs]⟩
  · intro m hm
    rcases h : env.request n path reqtype with ⟨ty, ms⟩ | ⟨resp, content⟩
    · simp [do_call, h] at hm
    · by_cases hs : resp.status = 200 <;> simp [do_call, h, hs] at hm
  · intro m hm
    rcases h : env.request n path reqtype with ⟨ty, ms⟩ | ⟨resp, content⟩
    · simp [do_call, h] at hm
    · by_cases hs : resp.status = 200 <;> simp [do_call, h, hs] at hm

/-- Witness for `do_call_error_translation` at concrete transports: a raising
transport yields `NetworkError`, a 500 response yields the matching
`HTTPError`, a 200 response is returned unchanged. -/
theorem do_call_error_translation_witness :
    (∃ msg, (do_call envRaising testClient 0 "p" "GET").1
      = .error (.networkError msg)) ∧
    (do_call (envWith 500) testClient 0 "p" "GET").1
      = .error (.httpError 500 "why" "p") ∧
    (do_call (envWith 200) testClient 0 "p" "GET").1
      = .ok (⟨200, "why"⟩, [104, 105]) := by
  refine ⟨(do_call_error_translation envRaising testClient 0 "p" "GET").1
      "OSError" "connection refused" rfl, ?_, ?_⟩
  · exact ((do_call_error_translation (envWith 500) testClient 0 "p" "GET").2.1
      ⟨500, "why"⟩ [104, 105] rfl).1 (by decide)
  · exact ((do_call_error_translation (envWith 200) testClient 0 "p" "GET").2.1
      ⟨200, "why"⟩ [104, 105] rfl).2 rfl

/-- Claim C2: for every vhost, if the aliveness-test request results in an
`HTTPError` with status 404, `is_alive` raises an `APIError` whose message
names the missing vhost; an `HTTPError` with any other status is re-raised
unchanged. -/
theorem is_alive_vhost_error_translation {J : Type} (env : Env J)
    (c : HTTPClient) (n : Nat) (vhost : String) (s : Nat) (r p : String)
    (h : (do_call env c n
        (pathJoin c.base_url (pyFmt (urlsGet "live_test") [vhost])) "GET").1
      = .error (.httpError s r p)) :
    (s = 404 → (is_alive env c n vhost).1
      = .error (.apiError ("No vhost named \x27" ++ vhost ++ "\x27"))) ∧
    (s ≠ 404 → (is_alive env c n vhost).1 = .error (.httpError s r p)) := by
  have h2 := do_call_state env c n
    (pathJoin c.base_url (pyFmt (urlsGet "live_test") [vhost])) "GET"
  have key : do_call env c n
      (pathJoin c.base_url (pyFmt (urlsGet "live_test") [vhost])) "GET"
      = (.error (.httpError s r p), c, n + 1) := Prod.ext h h2
  constructor
  · intro hs
    subst hs
    simp [is_alive, key, pyFmt_no_vhost]
  · intro hs
    simp [is_alive, key, hs]

/-- Witness for `is_alive_vhost_error_translation`: a 404 becomes the
vhost-not-found `APIError`, a 500 is re-raised as the same `HTTPError`. -/
theorem is_alive_vhost_error_translation_witness :
    (is_alive (envWith 404) testClient 0 "myvhost").1
      = .error (.apiError ("No vhost named \x27" ++ "myvhost" ++ "\x27")) ∧
    (is_alive (envWith 500) testClient 0 "myvhost").1
      = .error (.httpError 500 "why"
          (pathJoin testClient.base_url (pyFmt (urlsGet "live_test") ["myvhost"]))) := by
  refine ⟨(is_alive_vhost_error_translation (envWith 404) testClient 0 "myvhost"
      404 "why" _ rfl).1 rfl,
    (is_alive_vhost_error_translation (envWith 500) testClient 0 "myvhost"
      500 "why" _ rfl).2 (by decide)⟩

/-- Claim C3: if the broker answers the get_users request with status 401,
`get_users` raises an `APIError` stating that only an admin can access user
data; an `HTTPError` with any other non-200 status is re-raised unchanged;
on a 200 response `get_users` returns the JSON-decoded response body. -/
theorem get_users_error_translation {J : Type} (env : Env J) (c : HTTPClient)
    (n : Nat) :
    (∀ r p, (do_call env c n (pathJoin c.base_url (urlsGet "all_users")) "GET").1
        = .error (.httpError 401 r p) →
      (get_users env c n).1 = .error (.apiError "Only admin can access user data")) ∧
    (∀ s r p, s ≠ 401 →
      (do_call env c n (pathJoin c.base_url (urlsGet "all_users")) "GET").1
        = .error (.httpError s r p) →
      (get_users env c n).1 = .error (.httpError s r p)) ∧
    (∀ resp content, env.request n (pathJoin c.base_url (urlsGet "all_users")) "GET"
        = .ok resp content → resp.status = 200 →
      (get_users env c n).1 = decode_json_content env content) := by
  have h2 := do_call_state env c n (pathJoin c.base_url (urlsGet "all_users")) "GET"
  refine ⟨?_, ?_, ?_⟩
  · intro r p h
    have key : do_call env c n (pathJoin c.base_url (urlsGet "all_users")) "GET"
        = (.error (.httpError 401 r p), c, n + 1) := Prod.ext h h2
    simp [get_users, key]
  · intro s r p hs h
    have key : do_call env c n (pathJoin c.base_url (urlsGet "all_users")) "GET"
        = (.error (.httpError s r p), c, n + 1) := Prod.ext h h2
    simp [get_users, key, hs]
  · intro resp content h h200
    have key := do_call_ok env c n (pathJoin c.base_url (urlsGet "all_users")) "GET"
      resp content h h200
    simp [get_users, key]

/-- Witness for `get_users_error_translation`: a 401 becomes the
access-denied `APIError`, a 403 is re-raised, a 200 response body is decoded
(the fixture decodes the two-byte content to the number 2). -/
theorem get_users_error_translation_witness :
    (get_users (envWith 401) testClient 0).1
      = .error (.apiError "Only admin can access user data") ∧
    (get_users (envWith 403) testClient 0).1
      = .error (.httpError 403 "why"
          (pathJoin testClient.base_url (urlsGet "all_users"))) ∧
    (get_users (envWith 200) testClient 0).1
      = decode_json_content (envWith 200) [104, 105] := by
  refine ⟨(get_users_error_translation (envWith 401) testClient 0).1 "why" _ rfl,
    (get_users_error_translation (envWith 403) testClient 0).2.1 403 "why" _
      (by decide) rfl,
    (get_users_error_translation (envWith 200) testClient 0).2.2
      ⟨200, "why"⟩ [104, 105] rfl rfl⟩

/-- Claim C4, as frozen, is false at `get_connections(name=conn1)`: against
a transport that answers 200 only on the name-substituted URL
`http://x:1/api/connections/conn1` and 404 elsewhere, `get_connections`
gets the 404, and the path recorded in the resulting `HTTPError` is the
unsubstituted `http://x:1/api/connections/%s`; a single GET to the URL the
claim prescribes (base joined with the substituted template entry) would
have succeeded, so the two behaviours differ. -/
theorem request_paths_literal_template_counterexample :
    (get_connections (envOnly "http://x:1/api/connections/conn1")
        (mkHTTPClient "x:1" "u" "pw") 0 (some "conn1")).1
      = .error (.httpError 404 "Not Found" "http://x:1/api/connections/%s") ∧
    (getJsonAt (envOnly "http://x:1/api/connections/conn1")
        (mkHTTPClient "x:1" "u" "pw") 0
        (pathJoin (mkHTTPClient "x:1" "u" "pw").base_url
          (pyFmt (urlsGet "connections_by_name") ["conn1"]))).1 = .ok 2 ∧
    (get_connections (envOnly "http://x:1/api/connections/conn1")
        (mkHTTPClient "x:1" "u" "pw") 0 (some "conn1")).1
      ≠ (getJsonAt (envOnly "http://x:1/api/connections/conn1")
          (mkHTTPClient "x:1" "u" "pw") 0
          (pathJoin (mkHTTPClient "x:1" "u" "pw").base_url
            (pyFmt (urlsGet "connections_by_name") ["conn1"]))).1 := by
  have h1 : (get_connections (envOnly "http://x:1/api/connections/conn1")
      (mkHTTPClient "x:1" "u" "pw") 0 (some "conn1")).1
      = .error (.httpError 404 "Not Found" "http://x:1/api/connections/%s") := rfl
  have h2 : (getJsonAt (envOnly "http://x:1/api/connections/conn1")
      (mkHTTPClient "x:1" "u" "pw") 0
      (pathJoin (mkHTTPClient "x:1" "u" "pw").base_url
        (pyFmt (urlsGet "connections_by_name") ["conn1"]))).1 = .ok 2 := rfl
  refine ⟨h1, h2, ?_⟩
  rw [h1, h2]
  simp

/-- Claim C4, amended (excluding only the case the counterexample refutes):
for every operation except `get_connections` with a truthy name, and for
every string argument, the URL requested is the base URL
`http://<server>/api` fixed at construction, joined with that operation's
entry in the urls table with the arguments substituted into its
placeholders: `is_alive vhost` requests `<base>/aliveness-test/<vhost>`,
`get_queue vhost name` requests `<base>/queues/<vhost>/<name>`, and so on
for every operation; `get_connections` with a truthy name instead requests
the unsubstituted template (the C5 bug). -/
theorem request_paths_from_templates {J : Type} (env : Env J)
    (server v nm vhost : String) (n : Nat) :
    (v ≠ "" → get_queues env (mkHTTPClient server "u" "pw") n (some v)
      = getJsonAt env (mkHTTPClient server "u" "pw") n
          ("http://" ++ server ++ "/api" ++ "/queues/" ++ v)) ∧
    (v ≠ "" → get_exchanges env (mkHTTPClient server "u" "pw") n (some v)
      = getJsonAt env (mkHTTPClient server "u" "pw") n
          ("http://" ++ server ++ "/api" ++ "/exchanges/" ++ v)) ∧
    (mkHTTPClient server "u" "pw").base_url = "http://" ++ server ++ "/api" ∧
    is_alive env (mkHTTPClient server "u" "pw") n vhost
      = aliveCheckAt env (mkHTTPClient server "u" "pw") n
          ("http://" ++ server ++ "/api" ++ "/aliveness-test/" ++ vhost) vhost ∧
    get_whoami env (mkHTTPClient server "u" "pw") n
      = getJsonAt env (mkHTTPClient server "u" "pw") n
          ("http://" ++ server ++ "/api" ++ "/whoami") ∧
    get_users env (mkHTTPClient server "u" "pw") n
      = getUsersAt env (mkHTTPClient server "u" "pw") n
          ("http://" ++ server ++ "/api" ++ "/users") ∧
    get_overview env (mkHTTPClient server "u" "pw") n
      = getJsonAt env (mkHTTPClient server "u" "pw") n
          ("http://" ++ server ++ "/api" ++ "/overview") ∧
    get_all_vhosts env (mkHTTPClient server "u" "pw") n
      = getJsonAt env (mkHTTPClient server "u" "pw") n
          ("http://" ++ server ++ "/api" ++ "/vhosts") ∧
    get_queues env (mkHTTPClient server "u" "pw") n none
      = getJsonAt env (mkHTTPClient server "u" "pw") n
          ("http://" ++ server ++ "/api" ++ "/queues") ∧
    get_queues env (mkHTTPClient server "u" "pw") n (some "")
      = getJsonAt env (mkHTTPClient server "u" "pw") n
          ("http://" ++ server ++ "/api" ++ "/queues") ∧
    get_queue env (mkHTTPClient server "u" "pw") n v nm
      = getJsonAt env (mkHTTPClient server "u" "pw") n
          ("http://" ++ server ++ "/api" ++ "/queues/" ++ v ++ "/" ++ nm) ∧
    purge_queue env (mkHTTPClient server "u" "pw") n v nm
      = purgeCheckAt env (mkHTTPClient server "u" "pw") n
          ("http://" ++ server ++ "/api" ++ "/queues/" ++ v ++ "/" ++ nm ++ "/contents") ∧
    get_exchanges env (mkHTTPClient server "u" "pw") n none
      = getJsonAt env (mkHTTPClient server "u" "pw") n
          ("http://" ++ server ++ "/api" ++ "/exchanges") ∧
    get_exchanges env (mkHTTPClient server "u" "pw") n (some "")
      = getJsonAt env (mkHTTPClient server "u" "pw") n
          ("http://" ++ server ++ "/api" ++ "/exchanges") ∧
    get_exchange env (mkHTTPClient server "u" "pw") n v nm
      = getJsonAt env (mkHTTPClient server "u" "pw") n
          ("http://" ++ server ++ "/api" ++ "/exchanges/" ++ v ++ "/" ++ nm) ∧
    get_connections env (mkHTTPClient server "u" "pw") n none
      = getJsonAt env (mkHTTPClient server "u" "pw") n
          ("http://" ++ server ++ "/api" ++ "/connections") ∧
    get_connections env (mkHTTPClient server "u" "pw") n (some "")
      = getJsonAt env (mkHTTPClient server "u" "pw") n
          ("http://" ++ server ++ "/api" ++ "/connections") ∧
    get_channels env (mkHTTPClient server "u" "pw") n
      = getJsonAt env (mkHTTPClient server "u" "pw") n
          ("http://" ++ server ++ "/api" ++ "/channels") := by
  have hbase : (mkHTTPClient server "u" "pw").base_url = "http://" ++ server ++ "/api" := by
    simp [mkHTTPClient, pyFmt_base_url]
  have hqv : pathJoin (mkHTTPClient server "u" "pw").base_url
      (pyFmt (urlsGet "queues_by_vhost") [v])
      = "http://" ++ server ++ "/api" ++ "/queues/" ++ v := by
    rw [hbase, show urlsGet "queues_by_vhost" = "queues/%s" from rfl, pyFmt_queues_by_vhost]
    exact pathJoin_base_data server _ _ (by simp [String.data_append])
      (by simp [String.data_append])
  have hxv : pathJoin (mkHTTPClient server "u" "pw").base_url
      (pyFmt (urlsGet "exchanges_by_vhost") [v])
      = "http://" ++ server ++ "/api" ++ "/exchanges/" ++ v := by
    rw [hbase, show urlsGet "exchanges_by_vhost" = "exchanges/%s" from rfl,
      pyFmt_exchanges_by_vhost]
    exact pathJoin_base_data server _ _ (by simp [String.data_append])
      (by simp [String.data_append])
  have hlive : pathJoin (mkHTTPClient server "u" "pw").base_url
      (pyFmt (urlsGet "live_test") [vhost])
      = "http://" ++ server ++ "/api" ++ "/aliveness-test/" ++ vhost := by
    rw [hbase, show urlsGet "live_test" = "aliveness-test/%s" from rfl, pyFmt_live_test]
    exact pathJoin_base_data server _ _ (by simp [String.data_append])
      (by simp [String.data_append])
  have hwho : pathJoin (mkHTTPClient server "u" "pw").base_url (urlsGet "whoami")
      = "http://" ++ server ++ "/api" ++ "/whoami" := by
    rw [hbase, show urlsGet "whoami" = "whoami" from rfl]
    exact pathJoin_base_data server _ _ (by decide) (by simp [String.data_append])
  have husers : pathJoin (mkHTTPClient server "u" "pw").base_url (urlsGet "all_users")
      = "http://" ++ server ++ "/api" ++ "/users" := by
    rw [hbase, show urlsGet "all_users" = "users" from rfl]
    exact pathJoin_base_data server _ _ (by decide) (by simp [String.data_append])
  have hover : pathJoin (mkHTTPClient server "u" "pw").base_url (urlsGet "overview")
      = "http://" ++ server ++ "/api" ++ "/overview" := by
    rw [hbase, show urlsGet "overview" = "overview" from rfl]
    exact pathJoin_base_data server _ _ (by decide) (by simp [String.data_append])
  have hvh : pathJoin (mkHTTPClient server "u" "pw").base_url (urlsGet "all_vhosts")
      = "http://" ++ server ++ "/api" ++ "/vhosts" := by
    rw [hbase, show urlsGet "all_vhosts" = "vhosts" from rfl]
    exact pathJoin_base_data server _ _ (by decide) (by simp [String.data_append])
  have hqall : pathJoin (mkHTTPClient server "u" "pw").base_url (urlsGet "all_queues")
      = "http://" ++ server ++ "/api" ++ "/queues" := by
    rw [hbase, show urlsGet "all_queues" = "queues" from rfl]
    exact pathJoin_base_data server _ _ (by decide) (by simp [String.data_append])
  have hq : pathJoin (mkHTTPClient server "u" "pw").base_url
      (pyFmt (urlsGet "queues_by_name") [v, nm])
      = "http://" ++ server ++ "/api" ++ "/queues/" ++ v ++ "/" ++ nm := by
    rw [hbase, show urlsGet "queues_by_name" = "queues/%s/%s" from rfl, pyFmt_queues_by_name]
    exact pathJoin_base_data server _ _ (by simp [String.data_append])
      (by simp [String.data_append])
  have hpq : pathJoin (mkHTTPClient server "u" "pw").base_url
      (pyFmt (urlsGet "purge_queue") [v, nm])
      = "http://" ++ server ++ "/api" ++ "/queues/" ++ v ++ "/" ++ nm ++ "/contents" := by
    rw [hbase, show urlsGet "purge_queue" = "queues/%s/%s/contents" from rfl, pyFmt_purge_queue]
    exact pathJoin_base_data server _ _ (by simp [String.data_append])
      (by simp [String.data_append])
  have hxall : pathJoin (mkHTTPClient server "u" "pw").base_url (urlsGet "all_exchanges")
      = "http://" ++ server ++ "/api" ++ "/exchanges" := by
    rw [hbase, show urlsGet "all_exchanges" = "exchanges" from rfl]
    exact pathJoin_base_data server _ _ (by decide) (by simp [String.data_append])
  have hx : pathJoin (mkHTTPClient server "u" "pw").base_url
      (pyFmt (urlsGet "exchange_by_name") [v, nm])
      = "http://" ++ server ++ "/api" ++ "/exchanges/" ++ v ++ "/" ++ nm := by
    rw [hbase, show urlsGet "exchange_by_name" = "exchanges/%s/%s" from rfl,
      pyFmt_exchange_by_name]
    exact pathJoin_base_data server _ _ (by simp [String.data_append])
      (by simp [String.data_append])
  have hcall : pathJoin (mkHTTPClient server "u" "pw").base_url (urlsGet "all_connections")
      = "http://" ++ server ++ "/api" ++ "/connections" := by
    rw [hbase, show urlsGet "all_connections" = "connections" from rfl]
    exact pathJoin_base_data server _ _ (by decide) (by simp [String.data_append])
  have hch : pathJoin (mkHTTPClient server "u" "pw").base_url (urlsGet "all_channels")
      = "http://" ++ server ++ "/api" ++ "/channels" := by
    rw [hbase, show urlsGet "all_channels" = "channels" from rfl]
    exact pathJoin_base_data server _ _ (by decide) (by simp [String.data_append])
  refine ⟨?_, ?_, hbase, ?_, ?_, ?_, ?_, ?_, ?_, ?_, ?_, ?_, ?_, ?_, ?_, ?_, ?_, ?_⟩
  · intro hv
    simp [get_queues, getJsonAt, hqv, hv]
  · intro hv
    simp [get_exchanges, getJsonAt, hxv, hv]
  · simp only [is_alive, aliveCheckAt, hlive]
  · simp only [get_whoami, getJsonAt, hwho]
  · simp only [get_users, getUsersAt, husers]
  · simp only [get_overview, getJsonAt, hover]
  · simp only [get_all_vhosts, getJsonAt, hvh]
  · simp [get_queues, getJsonAt, hqall]
  · simp [get_queues, getJsonAt, hqall]
  · simp only [get_queue, getJsonAt, hq]
  · simp only [purge_queue, purgeCheckAt, hpq]
  · simp [get_exchanges, getJsonAt, hxall]
  · simp [get_exchanges, getJsonAt, hxall]
  · simp only [get_exchange, getJsonAt, hx]
  · simp [get_connections, getJsonAt, hcall, strTruthy]
  · simp [get_connections, getJsonAt, hcall, strTruthy]
  · simp only [get_channels, getJsonAt, hch]

/-- Witness for the amended `request_paths_from_templates`, discharging its
nonempty-vhost hypotheses at a concrete vhost. -/
theorem request_paths_from_templates_witness :
    get_queues (envWith 200) (mkHTTPClient "x:1" "u" "pw") 0 (some "vh")
      = getJsonAt (envWith 200) (mkHTTPClient "x:1" "u" "pw") 0
          ("http://" ++ "x:1" ++ "/api" ++ "/queues/" ++ "vh") ∧
    get_exchanges (envWith 200) (mkHTTPClient "x:1" "u" "pw") 0 (some "vh")
      = getJsonAt (envWith 200) (mkHTTPClient "x:1" "u" "pw") 0
          ("http://" ++ "x:1" ++ "/api" ++ "/exchanges/" ++ "vh") := by
  have h := request_paths_from_templates (envWith 200) "x:1" "vh" "q1" "%2F" 0
  exact ⟨h.1 (by decide), h.2.1 (by decide)⟩

/-- Claim C5 is falsified by the code: for a truthy `name`, `get_connections`
takes the `connections_by_name` template verbatim, so the requested URL is
`<base>/connections/%s` with a literal `%s`, not the name-substituted
`<base>/connections/<name>` that substitution into the template (second
conjunct) would have produced; the two URLs differ (third conjunct). -/
theorem get_connections_requests_unsubstituted_template {J : Type}
    (env : Env J) (server : String) (n : Nat) :
    get_connections env (mkHTTPClient server "u" "pw") n (some "conn1")
      = getJsonAt env (mkHTTPClient server "u" "pw") n
          ("http://" ++ server ++ "/api" ++ "/connections/%s") ∧
    pyFmt (urlsGet "connections_by_name") ["conn1"] = "connections/conn1" ∧
    ("http://x:1/api" ++ "/connections/%s" : String)
      ≠ ("http://x:1/api" ++ "/connections/conn1" : String) := by
  have hbase : (mkHTTPClient server "u" "pw").base_url = "http://" ++ server ++ "/api" := by
    simp [mkHTTPClient, pyFmt_base_url]
  have hpath : pathJoin (mkHTTPClient server "u" "pw").base_url
      (if strTruthy (some "conn1") then urlsGet "connections_by_name"
       else urlsGet "all_connections")
      = "http://" ++ server ++ "/api" ++ "/connections/%s" := by
    rw [show (if strTruthy (some "conn1") then urlsGet "connections_by_name"
        else urlsGet "all_connections") = "connections/%s" from rfl, hbase, pathJoin_base]
    · apply String.ext
      simp [String.data_append]
    · simp [String.data_append]
  refine ⟨?_, by decide, by decide⟩
  simp only [get_connections, getJsonAt, hpath]

/-- Claim C6: for every GET-returning operation, when the request succeeds
with status 200 the return value equals the generic JSON decoding (json.loads
of the utf-8 decoding) of the raw response body, with no per-endpoint
transformation. -/
theorem get_operations_decode_json {J : Type} (env : Env J) (c : HTTPClient)
    (n : Nat) (resp : Resp) (content : List Nat)
    (hreq : ∀ p r, env.request n p r = .ok resp content)
    (h200 : resp.status = 200) :
    decode_json_content env content = (env.utf8Decode content).bind env.jsonLoads ∧
    (get_whoami env c n).1 = decode_json_content env content ∧
    (get_users env c n).1 = decode_json_content env content ∧
    (get_overview env c n).1 = decode_json_content env content ∧
    (get_all_vhosts env c n).1 = decode_json_content env content ∧
    (∀ ov, (get_queues env c n ov).1 = decode_json_content env content) ∧
    (∀ v nm, (get_queue env c n v nm).1 = decode_json_content env content) ∧
    (∀ ov, (get_exchanges env c n ov).1 = decode_json_content env content) ∧
    (∀ v nm, (get_exchange env c n v nm).1 = decode_json_content env content) ∧
    (∀ ov, (get_connections env c n ov).1 = decode_json_content env content) ∧
    (get_channels env c n).1 = decode_json_content env content := by
  refine ⟨rfl, ?_, ?_, ?_, ?_, ?_, ?_, ?_, ?_, ?_, ?_⟩
  · simp [get_whoami, do_call, hreq, h200]
  · simp [get_users, do_call, hreq, h200]
  · simp [get_overview, do_call, hreq, h200]
  · simp [get_all_vhosts, do_call, hreq, h200]
  · intro ov
    rcases ov with _ | v
    · simp [get_queues, do_call, hreq, h200]
    · by_cases hv : v = "" <;> simp [get_queues, do_call, hreq, h200, hv]
  · intro v nm
    simp [get_queue, do_call, hreq, h200]
  · intro ov
    rcases ov with _ | v
    · simp [get_exchanges, do_call, hreq, h200]
    · by_cases hv : v = "" <;> simp [get_exchanges, do_call, hreq, h200, hv]
  · intro v nm
    simp [get_exchange, do_call, hreq, h200]
  · intro ov
    simp [get_connections, do_call, hreq, h200]
  · simp [get_channels, do_call, hreq, h200]

/-- Witness for `get_operations_decode_json` on a concrete 200 transport:
the fixture decodes the two-byte body through its decoders. -/
theorem get_operations_decode_json_witness :
    (get_whoami (envWith 200) testClient 0).1
      = decode_json_content (envWith 200) [104, 105] ∧
    (get_queue (envWith 200) testClient 0 "vh" "q1").1
      = decode_json_content (envWith 200) [104, 105] := by
  have h := get_operations_decode_json (envWith 200) testClient 0 ⟨200, "why"⟩
    [104, 105] (fun _ _ => rfl) rfl
  exact ⟨h.2.1, h.2.2.2.2.2.2.1 "vh" "q1"⟩

/-- Claim C7: every public operation issues exactly one HTTP request per
call: the request counter after any operation, whether it returns or raises,
is the counter before plus one, so no request is ever repeated. -/
theorem single_request_per_operation {J : Type} (env : Env J) (c : HTTPClient)
    (n : Nat) (p rt v nm : String) (ov : Option String) :
    (do_call env c n p rt).2.2 = n + 1 ∧
    (is_alive env c n v).2.2 = n + 1 ∧
    (get_whoami env c n).2.2 = n + 1 ∧
    (get_users env c n).2.2 = n + 1 ∧
    (get_overview env c n).2.2 = n + 1 ∧
    (get_all_vhosts env c n).2.2 = n + 1 ∧
    (get_queues env c n ov).2.2 = n + 1 ∧
    (get_queue env c n v nm).2.2 = n + 1 ∧
    (purge_queue env c n v nm).2.2 = n + 1 ∧
    (get_exchanges env c n ov).2.2 = n + 1 ∧
    (get_exchange env c n v nm).2.2 = n + 1 ∧
    (get_connections env c n ov).2.2 = n + 1 ∧
    (get_channels env c n).2.2 = n + 1 := by
  refine ⟨by rw [do_call_state], by rw [is_alive_state], by rw [get_whoami_state],
    by rw [get_users_state], by rw [get_overview_state], by rw [get_all_vhosts_state],
    by rw [get_queues_state], by rw [get_queue_state], by rw [purge_queue_state],
    by rw [get_exchanges_state], by rw [get_exchange_state], by rw [get_connections_state],
    by rw [get_channels_state]⟩

/-- Claim C8: every public operation leaves the instance state of the client
unchanged: the `HTTPClient` value (carrying the `base_url` set in
`__init__`) coming out of every operation equals the one passed in, whether
the operation returns or raises, so no response data is cached on the
instance. -/
theorem operations_preserve_client_state {J : Type} (env : Env J)
    (c : HTTPClient) (n : Nat) (p rt v nm : String) (ov : Option String) :
    (do_call env c n p rt).2.1 = c ∧
    (is_alive env c n v).2.1 = c ∧
    (get_whoami env c n).2.1 = c ∧
    (get_users env c n).2.1 = c ∧
    (get_overview env c n).2.1 = c ∧
    (get_all_vhosts env c n).2.1 = c ∧
    (get_queues env c n ov).2.1 = c ∧
    (get_queue env c n v nm).2.1 = c ∧
    (purge_queue env c n v nm).2.1 = c ∧
    (get_exchanges env c n ov).2.1 = c ∧
    (get_exchange env c n v nm).2.1 = c ∧
    (get_connections env c n ov).2.1 = c ∧
    (get_channels env c n).2.1 = c := by
  refine ⟨by rw [do_call_state], by rw [is_alive_state], by rw [get_whoami_state],
    by rw [get_users_state], by rw [get_overview_state], by rw [get_all_vhosts_state],
    by rw [get_queues_state], by rw [get_queue_state], by rw [purge_queue_state],
    by rw [get_exchanges_state], by rw [get_exchange_state], by rw [get_connections_state],
    by rw [get_channels_state]⟩

/-- Claim C9: whenever `is_alive` returns normally (without raising), it
returns `True`: its `False` branch is unreachable, because `do_call` raises
for every response status other than 200. -/
theorem is_alive_normal_return_is_true {J : Type} (env : Env J)
    (c : HTTPClient) (n : Nat) (vhost : String) (b : Bool)
    (h : (is_alive env c n vhost).1 = .ok b) : b = true := by
  cases b
  · exfalso
    rcases hr : env.request n
        (pathJoin c.base_url (pyFmt (urlsGet "live_test") [vhost])) "GET"
      with ⟨ty, m⟩ | ⟨resp, content⟩
    · simp [is_alive, do_call, hr] at h
    · by_cases hs : resp.status = 200
      · simp [is_alive, do_call, hr, hs] at h
      · by_cases h4 : resp.status = 404 <;>
          simp [is_alive, do_call, hr, hs, h4] at h
  · rfl

/-- Witness for `is_alive_normal_return_is_true` on a 200 transport. -/
theorem is_alive_normal_return_is_true_witness :
    (is_alive (envWith 200) testClient 0 "%2F").1 = .ok true ∧ true = true :=
  ⟨rfl, is_alive_normal_return_is_true (envWith 200) testClient 0 "%2F" true rfl⟩

/-- Claim C10: when the transport answers the purge request with a response,
`purge_queue` returns `True` exactly when the status is 200 or 204 (the 204
raised by `do_call` as an `HTTPError` is caught and converted to `True`);
every other status propagates as the corresponding `HTTPError`, and a
transport failure propagates as `NetworkError`. -/
theorem purge_queue_success_statuses {J : Type} (env : Env J) (c : HTTPClient)
    (n : Nat) (v nm : String) :
    (∀ resp content, (∀ p r, env.request n p r = .ok resp content) →
      ((purge_queue env c n v nm).1 = .ok true ↔
        resp.status = 200 ∨ resp.status = 204) ∧
      (resp.status ≠ 200 → resp.status ≠ 204 →
        (purge_queue env c n v nm).1 = .error (.httpError resp.status resp.reason
          (pathJoin c.base_url (pyFmt (urlsGet "purge_queue") [v, nm]))))) ∧
    (∀ ty m, (∀ p r, env.request n p r = .exn ty m) →
      (purge_queue env c n v nm).1
        = .error (.networkError (pyFmt "Error: %s %s" [ty, m]))) := by
  constructor
  · intro resp content hreq
    constructor
    · by_cases hs : resp.status = 200
      · simp [purge_queue, do_call, hreq, hs]
      · by_cases h4 : resp.status = 204 <;>
          simp [purge_queue, do_call, hreq, hs, h4]
    · intro hs h4
      simp [purge_queue, do_call, hreq, hs, h4]
  · intro ty m hreq
    simp [purge_queue, do_call, hreq]

/-- Witness for `purge_queue_success_statuses`: a 204 response yields
`True`, a 500 propagates as `HTTPError`, a raising transport propagates as
`NetworkError`. -/
theorem purge_queue_success_statuses_witness :
    (purge_queue (envWith 204) testClient 0 "vh" "q1").1 = .ok true ∧
    (purge_queue (envWith 500) testClient 0 "vh" "q1").1
      = .error (.httpError 500 "why"
          (pathJoin testClient.base_url (pyFmt (urlsGet "purge_queue") ["vh", "q1"]))) ∧
    (purge_queue envRaising testClient 0 "vh" "q1").1
      = .error (.networkError (pyFmt "Error: %s %s" ["OSError", "connection refused"])) := by
  refine ⟨((purge_queue_success_statuses (envWith 204) testClient 0 "vh" "q1").1
      ⟨204, "why"⟩ [104, 105] (fun _ _ => rfl)).1.mpr (Or.inr rfl),
    ((purge_queue_success_statuses (envWith 500) testClient 0 "vh" "q1").1
      ⟨500, "why"⟩ [104, 105] (fun _ _ => rfl)).2 (by decide) (by decide),
    (purge_queue_success_statuses envRaising testClient 0 "vh" "q1").2
      "OSError" "connection refused" (fun _ _ => rfl)⟩

end Pyrabbit
